import Mathlib

/-!
Verification of the Ninox schema extractor (`ninox_api_extractor.py`).

This file is a shallow embedding of the core of the repository:
the Ninox code tokenizer, the relationship / dependency extractor,
and the persistence / search layer, together with theorems settling
the behavioural claims made about them.

Modelling conventions:
* Python strings are modelled as `List Char` (or `String` where a value
  is stored); machine integers do not occur in the modelled code paths.
* Python's Unicode character classes (`str.isalpha`, `str.isdigit`,
  `str.lower`) are modelled on the Basic Latin, Latin-1 Supplement and
  Latin Extended-A ranges, which cover the repository's data (umlauts,
  `ß`); code points beyond those ranges do not occur in the claims.
* SQLite state is modelled as explicit record states, with each SQL
  statement of the source translated to a state-transformer.
-/

/-! ### Character classes (Python `str` predicates, restricted to Latin ranges) -/

/-- Python `c in ' \t\r'` (the tokenizer's non-newline whitespace set). -/
def isWsp (c : Char) : Bool :=
  c = ' ' || c = '\t' || c = '\r'

/-- Python `str.isalpha`, restricted to Basic Latin, Latin-1 Supplement and
Latin Extended-A letters (the ranges occurring in the repository's data).
`0xD7` and `0xF7` are the multiplication and division signs, not letters. -/
def pyIsAlpha (c : Char) : Bool :=
  c.isAlpha || (0xC0 ≤ c.toNat && c.toNat ≤ 0x17F && c.toNat ≠ 0xD7 && c.toNat ≠ 0xF7)

/-- Python `str.isdigit` on the ASCII digits used by the modelled code. -/
def pyIsDigit (c : Char) : Bool :=
  c.isDigit

/-- Python `c.isalnum() or c == '_'`: the identifier-continuation class of
the tokenizer (line 415 of the source). -/
def isWordC (c : Char) : Bool :=
  pyIsAlpha c || pyIsDigit c || c = '_'

/-- Python `str.lower`, on ASCII and Latin-1 uppercase letters. -/
def pyLowerChar (c : Char) : Char :=
  if 'A' ≤ c && c ≤ 'Z' then Char.ofNat (c.toNat + 32)
  else if 0xC0 ≤ c.toNat && c.toNat ≤ 0xDE && c.toNat ≠ 0xD7 then Char.ofNat (c.toNat + 32)
  else c

/-- Python `word.lower()` over a character list. -/
def pyLower (w : List Char) : List Char :=
  w.map pyLowerChar

/-- `c in '+-*/%=<>'` (single-character operators, line 403). -/
def isOp1 (c : Char) : Bool :=
  c = '+' || c = '-' || c = '*' || c = '/' || c = '%' || c = '=' || c = '<' || c = '>'

/-- `c in '()[]{},.;:'` (punctuation, line 408). -/
def isPunct (c : Char) : Bool :=
  c = '(' || c = ')' || c = '[' || c = ']' || c = '{' || c = '}' ||
  c = ',' || c = '.' || c = ';' || c = ':'

/-! ### Token data model (`TokenType`, `Token`, keyword / builtin sets) -/

/-- `TokenType` enum of the source (lines 59-73). -/
inductive TokenType where
  | KEYWORD | OPERATOR | STRING | NUMBER | COMMENT | FUNCTION | BUILTIN
  | FIELD | TABLE | PUNCTUATION | IDENTIFIER | WHITESPACE | NEWLINE
  deriving DecidableEq, Repr

/-- `Token` dataclass (lines 76-82); `stop` is the source's `end` field,
renamed because `end` is reserved in Lean. -/
structure Token where
  type : TokenType
  value : List Char
  start : Nat
  stop : Nat
  deriving DecidableEq, Repr

/-- `KEYWORDS` set (lines 86-107). -/
def KEYWORDS : List String :=
  ["if", "then", "else", "end", "switch", "case", "default",
   "for", "do", "while", "break", "continue",
   "try", "catch", "throw",
   "let", "var", "function",
   "and", "or", "not", "in", "like",
   "true", "false", "null", "this", "me",
   "as", "database", "server", "transaction", "user",
   "select", "from", "where", "order", "by", "group", "limit",
   "asc", "desc", "distinct"]

/-- `BUILTIN_FUNCTIONS` set (lines 110-185). -/
def BUILTIN_FUNCTIONS : List String :=
  ["create", "delete", "duplicate", "record", "records",
   "first", "last", "item", "count", "sum", "avg", "min", "max",
   "text", "number", "upper", "lower", "trim", "length",
   "substr", "replace", "split", "join", "contains",
   "format", "formatNumber", "parseNumber",
   "today", "now", "date", "time", "datetime",
   "year", "month", "day", "hour", "minute", "second",
   "weekday", "week", "quarter",
   "dateAdd", "dateDiff", "dateFormat",
   "startOfDay", "endOfDay", "startOfWeek", "endOfWeek",
   "startOfMonth", "endOfMonth", "startOfYear", "endOfYear",
   "abs", "ceil", "floor", "round", "sqrt", "pow",
   "sin", "cos", "tan", "asin", "acos", "atan",
   "log", "exp", "random",
   "array", "unique", "sort", "reverse", "slice",
   "concat", "indexOf", "includes", "filter", "map",
   "alert", "confirm", "prompt", "dialog",
   "popupRecord", "openRecord", "closePopup",
   "openPrintLayout", "printRecord",
   "importFile", "exportFile", "downloadFile",
   "importCSV", "importJSON", "exportCSV", "exportJSON",
   "http", "httpGet", "httpPost", "httpPut", "httpDelete",
   "sendEmail", "email",
   "debug", "print", "sleep", "eval",
   "typeof", "isnull", "isempty", "isEmpty",
   "coalesce", "choose", "switch",
   "setStyle", "getStyle", "focus", "blur",
   "navigate", "openUrl", "openTable", "openView",
   "userId", "userName", "userEmail", "userRoles",
   "hasRole", "isAdmin",
   "databaseId", "databaseName", "tableId", "tableName",
   "fieldId", "fieldName",
   "archive", "unarchive", "isArchived",
   "copyToClipboard", "readFromClipboard",
   "parseJSON", "formatJSON", "json",
   "rgb", "rgba", "hex", "color",
   "location", "geoDistance"]

/-! ### Tokenizer scanning helpers -/

/-- Scan of a `---`-delimited block comment body (source lines 336-343):
consumes up to and including the first closing `---`, or to end of input
(`code.find('---', pos + 3)`); returns (consumed, rest). -/
def scanBlock : List Char → List Char × List Char
  | '-' :: '-' :: '-' :: rest => (['-', '-', '-'], rest)
  | c :: rest =>
      let s := scanBlock rest
      (c :: s.1, s.2)
  | [] => ([], [])

/-- Scan of a string body after the opening quote `q` (lines 346-371):
a backslash with a following character consumes both; the closing quote is
consumed and terminates; an unterminated string consumes to end of input. -/
def scanString (q : Char) : List Char → List Char × List Char
  | '\\' :: d :: rest =>
      let s := scanString q rest
      ('\\' :: d :: s.1, s.2)
  | c :: rest =>
      if c = q then ([c], rest)
      else
        let s := scanString q rest
        (c :: s.1, s.2)
  | [] => ([], [])

/-- Length of the number starting at the current position (lines 374-390,
the `end - pos` distance): digits, at most one dot (`has_dot`), and an
exponent marker `e`/`E` followed by a digit or a sign (the sign being
consumed with it). -/
def numLen : List Char → Bool → Nat
  | [], _ => 0
  | c :: rest, hasDot =>
      if pyIsDigit c then numLen rest hasDot + 1
      else if c = '.' && !hasDot then numLen rest true + 1
      else if c = 'e' || c = 'E' then
        match rest with
        | d :: rest' =>
            if pyIsDigit d || d = '+' || d = '-' then
              -- The source consumes the marker plus a sign and continues at
              -- `rest'`, or consumes the marker alone and continues at the
              -- digit `d`, whose own iteration then consumes it; in both
              -- cases two positions are consumed before continuing at
              -- `rest'` with `has_dot` unchanged.
              numLen rest' hasDot + 2
            else 0
        | [] => 0
      else 0

/-- Number scan: the consumed span and remainder (`code[pos:end]`, `end`). -/
def scanNumber (l : List Char) (hasDot : Bool) : List Char × List Char :=
  (l.take (numLen l hasDot), l.drop (numLen l hasDot))

/-- First character of `rest` after skipping spaces and tabs — the
tokenizer's lookahead loop (`code[lookahead] in ' \t'`, lines 426-428). -/
def nextNonBlank (rest : List Char) : Option Char :=
  (rest.dropWhile (fun c => c = ' ' || c = '\t')).head?

/-- `re.match(r'^[A-Z][A-Z0-9]{0,3}$', word)` (line 434): one ASCII
uppercase letter followed by at most three uppercase letters or digits. -/
def isTableIdPat (word : List Char) : Bool :=
  match word with
  | [] => false
  | c :: rest =>
      ('A' ≤ c && c ≤ 'Z') && rest.length ≤ 3 &&
      rest.all (fun d => ('A' ≤ d && d ≤ 'Z') || d.isDigit)

/-- Classification of an identifier-like word (lines 420-445): keyword
first; a builtin-set word is BUILTIN when followed (skipping spaces/tabs)
by `(` and otherwise IDENTIFIER; a word matching the short all-caps
pattern is TABLE when followed by `.` and otherwise FIELD; else
IDENTIFIER. `rest` is the input following the word. -/
def classifyWord (word rest : List Char) : TokenType :=
  let wl := String.mk (pyLower word)
  if wl ∈ KEYWORDS then .KEYWORD
  else if wl ∈ BUILTIN_FUNCTIONS then
    if nextNonBlank rest = some '(' then .BUILTIN else .IDENTIFIER
  else if isTableIdPat word then
    if nextNonBlank rest = some '.' then .TABLE else .FIELD
  else .IDENTIFIER

/-- `pos + 1 < len(code) and code[pos+1].isdigit()` (line 374). -/
def headIsDigit : List Char → Bool
  | d :: _ => pyIsDigit d
  | [] => false

/-- One iteration of the tokenizer loop (lines 311-455): returns the token
type, the consumed span, and the remaining input. The branch order is the
source's. -/
def nextChunk : List Char → TokenType × List Char × List Char
  | [] => (.IDENTIFIER, [], [])
  | c :: cs =>
      if c = '\n' then (.NEWLINE, [c], cs)
      else if isWsp c then
        (.WHITESPACE, (c :: cs).takeWhile isWsp, (c :: cs).dropWhile isWsp)
      else if (c :: cs).take 2 = ['/', '/'] then
        (.COMMENT, (c :: cs).takeWhile (· ≠ '\n'), (c :: cs).dropWhile (· ≠ '\n'))
      else if (c :: cs).take 3 = ['-', '-', '-'] then
        (.COMMENT, '-' :: '-' :: '-' :: (scanBlock (cs.drop 2)).1, (scanBlock (cs.drop 2)).2)
      else if c = '"' then
        (.STRING, c :: (scanString '"' cs).1, (scanString '"' cs).2)
      else if c = '\'' then
        (.STRING, c :: (scanString '\'' cs).1, (scanString '\'' cs).2)
      else if pyIsDigit c || (c = '.' && headIsDigit cs) then
        (.NUMBER, (scanNumber (c :: cs) false).1, (scanNumber (c :: cs) false).2)
      else if (c :: cs).take 2 = [':', '='] then
        (.OPERATOR, (c :: cs).take 2, (c :: cs).drop 2)
      else if (c :: cs).take 2 = ['<', '='] || (c :: cs).take 2 = ['>', '='] ||
              (c :: cs).take 2 = ['!', '='] || (c :: cs).take 2 = ['<', '>'] then
        (.OPERATOR, (c :: cs).take 2, (c :: cs).drop 2)
      else if isOp1 c then (.OPERATOR, [c], cs)
      else if isPunct c then (.PUNCTUATION, [c], cs)
      else if pyIsAlpha c || c = '_' then
        (classifyWord ((c :: cs).takeWhile isWordC) ((c :: cs).dropWhile isWordC),
         (c :: cs).takeWhile isWordC, (c :: cs).dropWhile isWordC)
      else (.IDENTIFIER, [c], cs)

/-- The tokenizer loop with explicit fuel; each iteration consumes at
least one character, so `code.length` fuel runs the loop to completion
(established by `tokenize_reconstructs_input`). -/
def tokenizeFromFuel : Nat → Nat → List Char → List Token
  | 0, _, _ => []
  | _ + 1, _, [] => []
  | fuel + 1, pos, code@(_ :: _) =>
      let s := nextChunk code
      ⟨s.1, s.2.1, pos, pos + s.2.1.length⟩ ::
        tokenizeFromFuel fuel (pos + s.2.1.length) s.2.2

/-- `tokenize` (lines 298-457). -/
def tokenize (code : List Char) : List Token :=
  tokenizeFromFuel code.length 0 code

/-- Tokens occupy consecutive spans starting at `p`: each token starts
where the previous one stopped and its span length is its value length. -/
def spanChain : Nat → List Token → Prop
  | _, [] => True
  | p, t :: ts => t.start = p ∧ t.stop = p + t.value.length ∧ spanChain t.stop ts

/-! ### Spec-worded classification (for claim C4)

`specClassifyWord` renders the specification's clause (a)-(e) priority
wording for identifier classification; it is compared against the code's
`classifyWord`. `amendedClassifyWord` renders the amended wording in which
a builtin-set word not followed by `(` is a plain identifier and does not
fall through to the table/field pattern checks. -/

/-- The spec's priority chain: (a) keyword; (b) builtin set AND followed by
`(`; (c) short all-caps pattern AND followed by `.`; (d) that pattern not
followed by `.`; (e) plain identifier. -/
def specClassifyWord (word rest : List Char) : TokenType :=
  if String.mk (pyLower word) ∈ KEYWORDS then .KEYWORD
  else if String.mk (pyLower word) ∈ BUILTIN_FUNCTIONS ∧ nextNonBlank rest = some '(' then
    .BUILTIN
  else if isTableIdPat word ∧ nextNonBlank rest = some '.' then .TABLE
  else if isTableIdPat word then .FIELD
  else .IDENTIFIER

/-- The amended priority chain: a builtin-set word is BUILTIN when followed
by `(` and otherwise a plain identifier (no fall-through to the table/field
pattern checks). -/
def amendedClassifyWord (word rest : List Char) : TokenType :=
  if String.mk (pyLower word) ∈ KEYWORDS then .KEYWORD
  else if String.mk (pyLower word) ∈ BUILTIN_FUNCTIONS then
    if nextNonBlank rest = some '(' then .BUILTIN else .IDENTIFIER
  else if isTableIdPat word then
    if nextNonBlank rest = some '.' then .TABLE else .FIELD
  else .IDENTIFIER

/-! ### Relationship records and set accumulation (claims C2, C6, C8) -/

/-- `Relationship` dataclass (lines 753-779). The Python dataclass
generates `__eq__` over all fields; the hand-written `__hash__` (lines
772-779) hashes only the five identity fields. -/
structure Relationship where
  database_id : String
  database_name : String
  source_table_id : String
  source_table_name : String
  source_field_id : String
  source_field_name : String
  target_table_id : String
  target_table_name : String
  target_database_id : Option String := none
  target_database_name : Option String := none
  relationship_type : String := "N:1"
  is_composition : Bool := false
  reverse_field_name : Option String := none
  found_in_code_type : Option String := none
  found_in_code : Option String := none
  deriving DecidableEq, Repr

/-- The five-field tuple hashed by `Relationship.__hash__`. -/
def Relationship.identityKey (r : Relationship) :
    String × String × String × String × String :=
  (r.database_id, r.source_table_name, r.source_field_name,
   r.target_table_name, r.relationship_type)

/-- `set.add` on the `all_relationships` Python set (line 1209 ff.):
membership is decided by the dataclass `__eq__`, i.e. equality of all
fields; an element equal to a present one is not added again. -/
def setAdd (s : List Relationship) (r : Relationship) : List Relationship :=
  if r ∈ s then s else s ++ [r]

/-- Accumulation of all detections into the set, in detection order, as
`_extract_database` does before inserting one stored row per element
(lines 1382-1407). -/
def storedRelationshipRows (dets : List Relationship) : List Relationship :=
  dets.foldl setAdd []

/-! ### Regex scanning for the reference extractors (claims C6, C7) -/

/-- Python `\s` on the ASCII whitespace characters. -/
def isPySpace (c : Char) : Bool :=
  c = ' ' || c = '\t' || c = '\n' || c = '\r' || c.toNat = 11 || c.toNat = 12

/-- ASCII letter. -/
def isAsciiLetter (c : Char) : Bool :=
  ('A' ≤ c && c ≤ 'Z') || ('a' ≤ c && c ≤ 'z')

/-- First character class `[A-Za-z_]` of the identifier capture groups. -/
def identStart (c : Char) : Bool :=
  isAsciiLetter c || c = '_'

/-- Continuation class `[A-Za-z0-9_äöüÄÖÜß]` of the identifier captures. -/
def identCont (c : Char) : Bool :=
  isAsciiLetter c || c.isDigit || c = '_' ||
  c = 'ä' || c = 'ö' || c = 'ü' || c = 'Ä' || c = 'Ö' || c = 'Ü' || c = 'ß'

/-- Python `\w` (word character) on the modelled ranges. -/
def isPyWordChar (c : Char) : Bool :=
  pyIsAlpha c || c.isDigit || c = '_'

/-- A quote character of the class `['\"]`. -/
def isQuote (c : Char) : Bool :=
  c = '\'' || c = '"'

/-- Case-insensitive literal match (`re.IGNORECASE`); returns the rest. -/
def matchLitCI : List Char → List Char → Option (List Char)
  | [], l => some l
  | _ :: _, [] => none
  | p :: ps, c :: cs =>
      if pyLowerChar c = pyLowerChar p then matchLitCI ps cs else none

/-- `\s+`: at least one whitespace character, maximal munch. -/
def matchWs1 : List Char → Option (List Char)
  | c :: cs => if isPySpace c then some (cs.dropWhile isPySpace) else none
  | [] => none

/-- A single required character. -/
def matchChar (c : Char) : List Char → Option (List Char)
  | d :: rest => if d = c then some rest else none
  | [] => none

/-- `([A-Za-z_][A-Za-z0-9_äöüÄÖÜß]*)`: captured identifier and rest. -/
def matchIdent : List Char → Option (List Char × List Char)
  | c :: cs =>
      if identStart c then some (c :: cs.takeWhile identCont, cs.dropWhile identCont)
      else none
  | [] => none

/-- `'([^']+)'`: single-quoted capture. -/
def matchQuotedSq : List Char → Option (List Char × List Char)
  | c :: cs =>
      if c = '\'' then
        match cs.takeWhile (fun d => !(d = '\'')), cs.dropWhile (fun d => !(d = '\'')) with
        | [], _ => none
        | body, _ :: rest => some (body, rest)
        | _, [] => none
      else none
  | [] => none

/-- `"([^"]+)"`: double-quoted capture. -/
def matchQuotedDq : List Char → Option (List Char × List Char)
  | c :: cs =>
      if c = '"' then
        match cs.takeWhile (fun d => !(d = '"')), cs.dropWhile (fun d => !(d = '"')) with
        | [], _ => none
        | body, _ :: rest => some (body, rest)
        | _, [] => none
      else none
  | [] => none

/-- `['\"]([^'\"]+)['\"]`: either quote opens, either quote closes. -/
def matchQuotedAny : List Char → Option (List Char × List Char)
  | c :: cs =>
      if isQuote c then
        match cs.takeWhile (fun d => !isQuote d), cs.dropWhile (fun d => !isQuote d) with
        | [], _ => none
        | body, _ :: rest => some (body, rest)
        | _, [] => none
      else none
  | [] => none

/-- First matching alternative of `(?:sum|max|min|avg|cnt)`. -/
def matchAltLit : List String → List Char → Option (List Char)
  | [], _ => none
  | s :: ss, l =>
      match matchLitCI s.toList l with
      | some r => some r
      | none => matchAltLit ss l

/-- `re.finditer` over one pattern: non-overlapping matches, scanning left
to right, continuing after each match's end; returns the group-1 captures.
Fuel is the input length (each step consumes at least one character). -/
def scanMatches (tryPat : List Char → Option (List Char × List Char)) :
    Nat → List Char → List String
  | 0, _ => []
  | _ + 1, [] => []
  | fuel + 1, c :: cs =>
      match tryPat (c :: cs) with
      | some m => String.mk m.1 :: scanMatches tryPat fuel m.2
      | none => scanMatches tryPat fuel cs

/-- `re.finditer` with positions: (match start, group 1, match end). -/
def scanMatchesPos (tryPat : List Char → Option (List Char × List Char)) :
    Nat → Nat → List Char → List (Nat × List Char × Nat)
  | 0, _, _ => []
  | _ + 1, _, [] => []
  | fuel + 1, i, c :: cs =>
      match tryPat (c :: cs) with
      | some m =>
          (i, m.1, i + ((c :: cs).length - m.2.length)) ::
            scanMatchesPos tryPat fuel (i + ((c :: cs).length - m.2.length)) m.2
      | none => scanMatchesPos tryPat fuel (i + 1) cs

/-! #### The eight `TABLE_REFERENCE_PATTERNS` (lines 885-894) -/

/-- `select\s+([A-Za-z_][A-Za-z0-9_äöüÄÖÜß]*)`. -/
def matchSelectIdent (l : List Char) : Option (List Char × List Char) :=
  (matchLitCI "select".toList l).bind fun r1 =>
  (matchWs1 r1).bind fun r2 =>
  matchIdent r2

/-- `select\s+'([^']+)'`. -/
def matchSelectSq (l : List Char) : Option (List Char × List Char) :=
  (matchLitCI "select".toList l).bind fun r1 =>
  (matchWs1 r1).bind fun r2 =>
  matchQuotedSq r2

/-- `select\s+"([^"]+)"`. -/
def matchSelectDq (l : List Char) : Option (List Char × List Char) :=
  (matchLitCI "select".toList l).bind fun r1 =>
  (matchWs1 r1).bind fun r2 =>
  matchQuotedDq r2

/-- `<name>\s*\(\s*([A-Za-z_][A-Za-z0-9_äöüÄÖÜß]*)` for `first`, `last`,
`count`. -/
def matchCallIdent (name : String) (l : List Char) :
    Option (List Char × List Char) :=
  (matchLitCI name.toList l).bind fun r1 =>
  (matchChar '(' (r1.dropWhile isPySpace)).bind fun r2 =>
  matchIdent (r2.dropWhile isPySpace)

/-- `first\s*\(\s*'([^']+)'`. -/
def matchFirstSq (l : List Char) : Option (List Char × List Char) :=
  (matchLitCI "first".toList l).bind fun r1 =>
  (matchChar '(' (r1.dropWhile isPySpace)).bind fun r2 =>
  matchQuotedSq (r2.dropWhile isPySpace)

/-- `(?:sum|max|min|avg|cnt)\s*\(\s*(ident)\.(ident)`; group 1 is used. -/
def matchAggregate (l : List Char) : Option (List Char × List Char) :=
  (matchAltLit ["sum", "max", "min", "avg", "cnt"] l).bind fun r1 =>
  (matchChar '(' (r1.dropWhile isPySpace)).bind fun r2 =>
  (matchIdent (r2.dropWhile isPySpace)).bind fun m1 =>
  (matchChar '.' m1.2).bind fun r3 =>
  (matchIdent r3).map fun m2 => (m1.1, m2.2)

/-- All group-1 captures of the eight patterns over the code, in the
pattern order of `TABLE_REFERENCE_PATTERNS`. -/
def capturedNames (code : List Char) : List String :=
  scanMatches matchSelectIdent code.length code ++
  scanMatches matchSelectSq code.length code ++
  scanMatches matchSelectDq code.length code ++
  scanMatches (matchCallIdent "first") code.length code ++
  scanMatches matchFirstSq code.length code ++
  scanMatches (matchCallIdent "last") code.length code ++
  scanMatches (matchCallIdent "count") code.length code ++
  scanMatches matchAggregate code.length code

/-- The stop-word tuple of `_extract_formula_references` (line 1427). -/
def STOP_WORDS : List String :=
  ["this", "true", "false", "null", "void", "let", "var", "end",
   "for", "if", "do", "then", "else"]

/-- The acceptance test of `_extract_formula_references` (lines 1425-1428):
known table name, or longer than 2 characters and not a stop word. -/
def acceptTableName (known : List String) (n : String) : Bool :=
  known.contains n ||
  (2 < n.length && !(STOP_WORDS.contains (String.mk (pyLower n.toList))))

/-- `_extract_formula_references` (lines 1416-1431): the accepted captures,
accumulated into a set (first occurrence kept). -/
def extractFormulaReferences (code : List Char) (known : List String) : List String :=
  (capturedNames code).foldl
    (fun s n =>
      if acceptTableName known n then (if s.contains n then s else s ++ [n]) else s)
    []

/-! ### Code locations and the per-script relationship construction -/

/-- Python `a or b` on an optional string: `None` and the empty string are
falsy and fall back to `b`. -/
def pyOr (a : Option String) (b : String) : String :=
  match a with
  | none => b
  | some s => if s = "" then b else s

/-- `CodeLocation` dataclass (lines 782-801); `line_count` is derived from
the code by `__post_init__` and not needed by the claims. -/
structure CodeLocation where
  team_id : String
  team_name : String
  database_id : String
  database_name : String
  table_id : Option String
  table_name : Option String
  element_id : Option String
  element_name : Option String
  code_type : String
  code_category : String
  code : String
  deriving DecidableEq, Repr

/-- The FORMULA_REF relationships built for one script record
(`_extract_database`, lines 1365-1379): one per extracted reference, with
the snippet truncated to `script.code[:500]`. `db_id`/`db_name` of the
enclosing extraction equal the script's own database fields. -/
def formulaRelsForScript (script : CodeLocation) (known : List String) :
    List Relationship :=
  (extractFormulaReferences script.code.toList known).map fun ref_table =>
    { database_id := script.database_id
      database_name := script.database_name
      source_table_id := pyOr script.table_id ""
      source_table_name := pyOr script.table_name "(Database)"
      source_field_id := pyOr script.element_id ""
      source_field_name := pyOr script.element_name script.code_type
      target_table_id := ""
      target_table_name := ref_table
      relationship_type := "FORMULA_REF"
      found_in_code_type := some script.code_type
      found_in_code := some (String.mk (script.code.toList.take 500)) }

/-! ### Cross-database reference extraction (claim C7) -/

/-- One entry of the list returned by `_extract_database_references`. -/
structure ScriptDependencyRef where
  target_database : String
  reference_type : String
  snippet : String
  deriving DecidableEq, Repr

/-- `do\s+as\s+database\s+['\"]([^'\"]+)['\"]` (line 1448). -/
def matchDoAsDatabase (l : List Char) : Option (List Char × List Char) :=
  (matchLitCI "do".toList l).bind fun r1 =>
  (matchWs1 r1).bind fun r2 =>
  (matchLitCI "as".toList r2).bind fun r3 =>
  (matchWs1 r3).bind fun r4 =>
  (matchLitCI "database".toList r4).bind fun r5 =>
  (matchWs1 r5).bind fun r6 =>
  matchQuotedAny r6

/-- `do\s+as\s+server\b` (line 1461); the boundary requires the next
character (if any) to not be a word character. -/
def matchDoAsServer (l : List Char) : Option (List Char × List Char) :=
  (matchLitCI "do".toList l).bind fun r1 =>
  (matchWs1 r1).bind fun r2 =>
  (matchLitCI "as".toList r2).bind fun r3 =>
  (matchWs1 r3).bind fun r4 =>
  (matchLitCI "server".toList r4).bind fun r5 =>
  match r5 with
  | [] => some ([], [])
  | d :: _ => if isPyWordChar d then none else some ([], r5)

/-- `openDatabase\s*\(\s*['\"]([^'\"]+)['\"]` (line 1473). -/
def matchOpenDatabase (l : List Char) : Option (List Char × List Char) :=
  (matchLitCI "openDatabase".toList l).bind fun r1 =>
  (matchChar '(' (r1.dropWhile isPySpace)).bind fun r2 =>
  matchQuotedAny (r2.dropWhile isPySpace)

/-- `str.strip()` on ASCII whitespace. -/
def pyStrip (s : List Char) : List Char :=
  ((s.dropWhile isPySpace).reverse.dropWhile isPySpace).reverse

/-- The context window `code[max(0, start-before):min(len, end+after)]`
with newlines replaced by spaces and the result stripped (lines 1451-1453,
1463-1465, 1475-1478). -/
def snippetWindow (code : List Char) (s e before after : Nat) : String :=
  let a := s - before
  let b := min code.length (e + after)
  String.mk (pyStrip (((code.drop a).take (b - a)).map
    (fun c => if c = '\n' then ' ' else c)))

/-- `_extract_database_references` (lines 1433-1485): the three pattern
scans in source order, each with its context window. -/
def extractDatabaseReferences (code : List Char) : List ScriptDependencyRef :=
  ((scanMatchesPos matchDoAsDatabase code.length 0 code).map fun m =>
    { target_database := String.mk m.2.1
      reference_type := "do as database"
      snippet := snippetWindow code m.1 m.2.2 20 50 }) ++
  ((scanMatchesPos matchDoAsServer code.length 0 code).map fun m =>
    { target_database := "(server)"
      reference_type := "do as server"
      snippet := snippetWindow code m.1 m.2.2 20 50 }) ++
  ((scanMatchesPos matchOpenDatabase code.length 0 code).map fun m =>
    { target_database := String.mk m.2.1
      reference_type := "openDatabase"
      snippet := snippetWindow code m.1 m.2.2 20 30 })

/-! ### The scripts table and its full-text mirror (claim C3) -/

/-- A row of the `scripts` table (columns of lines 983-1002; the rowid is
kept separately). -/
structure ScriptRec where
  team_id : String := ""
  team_name : Option String := none
  database_id : String := ""
  database_name : Option String := none
  table_id : Option String := none
  table_name : Option String := none
  element_id : Option String := none
  element_name : Option String := none
  code_type : String := ""
  code_category : Option String := none
  code : String := ""
  code_original : Option String := none
  line_count : Nat := 0
  deriving DecidableEq, Repr

/-- A row of the `scripts_fts` index (columns of lines 1021-1032). -/
structure FtsRow where
  code : String
  team_name : Option String
  database_name : Option String
  table_name : Option String
  element_name : Option String
  code_type : String
  deriving DecidableEq, Repr

/-- The column copy performed by the `scripts_ai` trigger (lines 1035-1040). -/
def ftsRowOf (s : ScriptRec) : FtsRow :=
  ⟨s.code, s.team_name, s.database_name, s.table_name, s.element_name, s.code_type⟩

/-- The `scripts` table with its full-text mirror and the next rowid. -/
structure ScriptsDB where
  scripts : List (Nat × ScriptRec)
  fts : List (Nat × FtsRow)
  nextId : Nat
  deriving DecidableEq, Repr

/-- State after `init_database` on a fresh store: both tables empty. -/
def initScriptsDB : ScriptsDB :=
  ⟨[], [], 1⟩

/-- `INSERT INTO scripts ...` (lines 1325-1344): the row is appended under
a fresh rowid and the after-insert trigger `scripts_ai` appends the mirror
row under the same rowid. -/
def insertScript (st : ScriptsDB) (s : ScriptRec) : ScriptsDB :=
  { scripts := st.scripts ++ [(st.nextId, s)]
    fts := st.fts ++ [(st.nextId, ftsRowOf s)]
    nextId := st.nextId + 1 }

/-- `DELETE FROM scripts_fts` (line 1109): a direct write to the index
outside the two triggers. -/
def deleteScriptsFtsAll (st : ScriptsDB) : ScriptsDB :=
  { st with fts := [] }

/-- `DELETE FROM scripts` (line 1111): every row is removed and the
after-delete trigger `scripts_ad` removes the mirror entry of each
deleted rowid. -/
def deleteScriptsAll (st : ScriptsDB) : ScriptsDB :=
  { st with
    scripts := []
    fts := st.fts.filter (fun p => st.scripts.all (fun q => q.1 ≠ p.1)) }

/-- The bulk clear of `extract_all` (lines 1108-1111): first the manual
index delete, then the triggered scripts delete. -/
def extractAllClear (st : ScriptsDB) : ScriptsDB :=
  deleteScriptsAll (deleteScriptsFtsAll st)

/-- The mirror invariant: an index row exists iff a scripts row with the
same rowid exists. -/
def ftsConsistent (st : ScriptsDB) : Bool :=
  st.fts.all (fun p => st.scripts.any (fun q => q.1 = p.1)) &&
  st.scripts.all (fun q => st.fts.any (fun p => p.1 = q.1))

/-! ### Script search (claims C5, C10) -/

/-- SQLite default `LIKE` case folding (ASCII letters only). -/
def lowerAsciiChar (c : Char) : Char :=
  if 'A' ≤ c && c ≤ 'Z' then Char.ofNat (c.toNat + 32) else c

/-- SQLite `LIKE` pattern matching: `%` matches any (possibly empty)
character sequence — rendered as a search over the string's suffixes —
`_` matches any one character, and any other pattern character compares
under ASCII case folding (the modelled query uses no ESCAPE clause). -/
def sqlLike : List Char → List Char → Bool
  | [], [] => true
  | [], _ :: _ => false
  | '%' :: p, s => s.tails.any (fun t => sqlLike p t)
  | '_' :: _, [] => false
  | '_' :: p, _ :: s => sqlLike p s
  | _ :: _, [] => false
  | c :: p, d :: s => (lowerAsciiChar c = lowerAsciiChar d) && sqlLike p s

/-- The pattern `f"%{query}%"` built by `search_scripts_simple`. -/
def likePatternFor (query : String) : List Char :=
  '%' :: (query.toList ++ ['%'])

/-- `column LIKE ?` on a nullable column: NULL matches nothing. -/
def likeOpt (pat : List Char) : Option String → Bool
  | some s => sqlLike pat s.toList
  | none => false

/-- The WHERE clause of `search_scripts_simple` (line 1539): code, table
name or element name LIKE `%query%`. -/
def likeAnyField (query : String) (r : ScriptRec) : Bool :=
  sqlLike (likePatternFor query) r.code.toList ||
  likeOpt (likePatternFor query) r.table_name ||
  likeOpt (likePatternFor query) r.element_name

/-- `ORDER BY database_name, table_name` key order: SQL NULLs sort first,
text compares bytewise. -/
def optStrLe (a b : Option String) : Bool :=
  match a, b with
  | none, _ => true
  | some _, none => false
  | some x, some y => x ≤ y

/-- Row order of `search_scripts_simple`'s ORDER BY. -/
def rowKeyLe (a b : ScriptRec) : Bool :=
  if a.database_name = b.database_name then optStrLe a.table_name b.table_name
  else optStrLe a.database_name b.database_name

/-- Stable insertion into a sorted list (ties keep earlier rows first). -/
def insertSorted (x : ScriptRec) : List ScriptRec → List ScriptRec
  | [] => [x]
  | y :: ys => if rowKeyLe y x then y :: insertSorted x ys else x :: y :: ys

/-- The ORDER BY of `search_scripts_simple` as a stable sort. -/
def sortRows (l : List ScriptRec) : List ScriptRec :=
  l.foldr insertSorted []

/-- `search_scripts_simple` (lines 1534-1543): LIKE filter over all
scripts, ordered by database and table name, limited. It takes no filter
arguments. -/
def searchScriptsSimple (db : List ScriptRec) (query : String) (limit : Nat) :
    List ScriptRec :=
  (sortRows (db.filter (likeAnyField query))).take limit

/-- The optional equality filters appended to the FTS query
(lines 1515-1523). -/
def filtersPass (database_id table_name code_type : Option String)
    (r : ScriptRec) : Bool :=
  (match database_id with | some v => r.database_id = v | none => true) &&
  (match table_name with | some v => r.table_name = some v | none => true) &&
  (match code_type with | some v => r.code_type = v | none => true)

/-- `search_scripts` (lines 1491-1532). The FTS engine is external: its
outcome is either the rank-ordered list of rows matching the query (to
which the SQL applies the equality filters and the limit) or the
`sqlite3.OperationalError` raised on invalid query syntax, in which case
the fallback `search_scripts_simple(query, limit)` is returned — called
without any of the filter arguments. -/
def searchScripts (db : List ScriptRec) (ftsOutcome : Except Unit (List ScriptRec))
    (query : String) (database_id table_name code_type : Option String)
    (limit : Nat) : List ScriptRec :=
  match ftsOutcome with
  | .ok matched => (matched.filter (filtersPass database_id table_name code_type)).take limit
  | .error _ => searchScriptsSimple db query limit

/-- Case-insensitive (ASCII) prefix test, auxiliary to the substring
characterisation of the fallback. -/
def startsWithCI : List Char → List Char → Bool
  | [], _ => true
  | _ :: _, [] => false
  | c :: q, d :: s => (lowerAsciiChar c = lowerAsciiChar d) && startsWithCI q s

/-- Case-insensitive (ASCII) substring containment: the spec's description
of the fallback scan. -/
def containsCI (q s : List Char) : Bool :=
  (List.range (s.length + 1)).any (fun i => startsWithCI q (s.drop i))

/-- The query has no LIKE wildcard characters. -/
def noWildcard (q : List Char) : Bool :=
  q.all (fun c => !(c = '%') && !(c = '_'))

/-! ### Table dependency lookup (claim C8) -/

/-- The three lists returned by `get_table_dependencies` (lines 1601-1605). -/
structure TableDependencies where
  references : List Relationship
  referenced_by : List Relationship
  formula_references : List Relationship
  deriving Repr

/-- `get_table_dependencies` (lines 1575-1605): three SELECTs over the
relationships table. -/
def getTableDependencies (rows : List Relationship) (t : String) :
    TableDependencies :=
  { references := rows.filter
      (fun r => r.source_table_name = t && !(r.relationship_type = "FORMULA_REF"))
    referenced_by := rows.filter
      (fun r => r.target_table_name = t && !(r.relationship_type = "FORMULA_REF"))
    formula_references := rows.filter
      (fun r => (r.source_table_name = t || r.target_table_name = t) &&
                r.relationship_type = "FORMULA_REF") }

/-! ### Store lifecycle around the integrity check (claim C9) -/

/-- A row of the `databases` table (identity and name suffice here). -/
structure DatabaseRow where
  id : String
  name : String
  deriving DecidableEq, Repr

/-- A row of the `tables` table. -/
structure TableRow where
  database_id : String
  table_id : String
  name : String
  deriving DecidableEq, Repr

/-- A row of the `fields` table. -/
structure FieldRow where
  database_id : String
  table_id : String
  field_id : String
  name : String
  deriving DecidableEq, Repr

/-- A row of the `script_dependencies` table. -/
structure DepRow where
  script_id : Nat
  source_database_id : String
  target_database_name : String
  reference_type : String
  code_snippet : String
  deriving DecidableEq, Repr

/-- The relational store: the seven tables created by `init_database`.
A value of this type is schema-valid by construction. -/
structure Store where
  databases : List DatabaseRow
  tables : List TableRow
  fields : List FieldRow
  relationships : List Relationship
  scripts : List (Nat × ScriptRec)
  script_dependencies : List DepRow
  scripts_fts : List (Nat × FtsRow)
  deriving DecidableEq, Repr

/-- The file at `db_path`: absent, or present with the result its
`PRAGMA integrity_check` would report and its current contents. -/
inductive StoreFile where
  | absent
  | file (integrityOk : Bool) (content : Store)
  deriving DecidableEq, Repr

/-- The store with every table empty. -/
def emptyStore : Store :=
  ⟨[], [], [], [], [], [], []⟩

/-- `init_database` (lines 901-1061): `CREATE TABLE IF NOT EXISTS` creates
the schema objects; data in an existing file is untouched, a fresh file
starts empty. -/
def initDatabaseOn : StoreFile → Store
  | .file _ st => st
  | .absent => emptyStore

/-- The integrity pre-check of `extract_all` (lines 1076-1094): a present
file whose check fails is removed (`os.remove`); otherwise the file is
left alone. -/
def integrityPrecheck : StoreFile → StoreFile
  | .file false _ => .absent
  | fs => fs

/-- The store state `extract_all` holds open after the pre-check and the
`if not self.conn: init_database()` step (lines 1076-1097): on a corrupt
file the open connection (if any) was closed and the removed file is
recreated empty; otherwise an existing connection or the existing file
contents are used. -/
def extractAllOpen (fs : StoreFile) (conn : Option Store) : Store :=
  let corrupt := match fs with | .file false _ => true | _ => false
  let conn' := if corrupt then none else conn
  match conn' with
  | some cur => cur
  | none => initDatabaseOn (integrityPrecheck fs)

/-- The seven `DELETE FROM` statements of lines 1108-1115 empty every
table before reinsertion. -/
def clearAllTables (_ : Store) : Store :=
  emptyStore

/-- The store state immediately before `extract_all` inserts any new data:
open (with integrity handling), then bulk delete. -/
def extractAllPrepared (fs : StoreFile) (conn : Option Store) : Store :=
  clearAllTables (extractAllOpen fs conn)

/-! ## Lemmas and theorems -/

theorem scanBlock_append (l : List Char) : (scanBlock l).1 ++ (scanBlock l).2 = l := by
  induction l using scanBlock.induct with
  | case1 rest => simp [scanBlock]
  | case2 c rest h ih => simp [scanBlock, ih]
  | case3 => simp [scanBlock]

theorem scanString_append (q : Char) (l : List Char) :
    (scanString q l).1 ++ (scanString q l).2 = l := by
  induction l using scanString.induct q with
  | case1 d rest ih => simp [scanString, ih]
  | _ => simp_all [scanString]

theorem numLen_pos {c : Char} {cs : List Char}
    (h : pyIsDigit c = true ∨ (c = '.' ∧ headIsDigit cs = true)) :
    0 < numLen (c :: cs) false := by
  rcases h with h | ⟨h, _⟩
  · rw [numLen.eq_def]
    simp [h]
  · subst h
    rw [numLen.eq_def]
    simp [pyIsDigit, Char.isDigit]

theorem nextChunk_spec (code : List Char) (hne : code ≠ []) :
    (nextChunk code).2.1 ≠ [] ∧ (nextChunk code).2.1 ++ (nextChunk code).2.2 = code := by
  cases code with
  | nil => exact absurd rfl hne
  | cons c cs =>
    rw [nextChunk.eq_2]
    by_cases h1 : c = '\n'
    · rw [if_pos h1]
      exact ⟨by simp, by simp⟩
    rw [if_neg h1]
    by_cases h2 : isWsp c = true
    · rw [if_pos h2]
      exact ⟨by simp [List.takeWhile_cons, h2], List.takeWhile_append_dropWhile _ _⟩
    rw [if_neg h2]
    by_cases h3 : List.take 2 (c :: cs) = ['/', '/']
    · rw [if_pos h3]
      have hc : c = '/' := by
        rw [List.take_succ_cons] at h3
        exact (List.cons_eq_cons.mp h3).1
      have hcn : ¬(c = '\n') := by rw [hc]; decide
      exact ⟨by simp [List.takeWhile_cons, hcn], List.takeWhile_append_dropWhile _ _⟩
    rw [if_neg h3]
    by_cases h4 : List.take 3 (c :: cs) = ['-', '-', '-']
    · rw [if_pos h4]
      have h4' : c :: cs = '-' :: '-' :: '-' :: cs.drop 2 := by
        conv_lhs => rw [← List.take_append_drop 3 (c :: cs)]
        rw [h4]
        simp
      refine ⟨by simp, ?_⟩
      rw [h4']
      simp [scanBlock_append]
    rw [if_neg h4]
    by_cases h5 : c = '"'
    · rw [if_pos h5]
      exact ⟨by simp, by simp [scanString_append]⟩
    rw [if_neg h5]
    by_cases h6 : c = '\''
    · rw [if_pos h6]
      exact ⟨by simp, by simp [scanString_append]⟩
    rw [if_neg h6]
    by_cases h7 : (pyIsDigit c || (c = '.' && headIsDigit cs)) = true
    · rw [if_pos h7]
      refine ⟨?_, List.take_append_drop _ _⟩
      have h7' : pyIsDigit c = true ∨ (c = '.' ∧ headIsDigit cs = true) := by
        simpa using h7
      have hpos := numLen_pos h7'
      simp only [scanNumber]
      cases hk : numLen (c :: cs) false with
      | zero => omega
      | succ n => simp [List.take_succ_cons]
    rw [if_neg h7]
    by_cases h8 : List.take 2 (c :: cs) = [':', '=']
    · rw [if_pos h8]
      exact ⟨by rw [h8]; simp, List.take_append_drop _ _⟩
    rw [if_neg h8]
    by_cases h9 : (List.take 2 (c :: cs) = ['<', '='] || List.take 2 (c :: cs) = ['>', '='] ||
        List.take 2 (c :: cs) = ['!', '='] || List.take 2 (c :: cs) = ['<', '>'] : Bool) = true
    · rw [if_pos h9]
      refine ⟨?_, List.take_append_drop _ _⟩
      have h9' := h9
      simp only [Bool.or_eq_true, decide_eq_true_eq] at h9'
      rcases h9' with ((h | h) | h) | h <;> rw [h] <;> simp
    rw [if_neg h9]
    by_cases h10 : isOp1 c = true
    · rw [if_pos h10]
      exact ⟨by simp, by simp⟩
    rw [if_neg h10]
    by_cases h11 : isPunct c = true
    · rw [if_pos h11]
      exact ⟨by simp, by simp⟩
    rw [if_neg h11]
    by_cases h12 : (pyIsAlpha c || c = '_') = true
    · rw [if_pos h12]
      have hw : isWordC c = true := by
        simp only [Bool.or_eq_true, decide_eq_true_eq] at h12
        rcases h12 with h | h <;> simp [isWordC, h]
      exact ⟨by simp [List.takeWhile_cons, hw], List.takeWhile_append_dropWhile _ _⟩
    rw [if_neg h12]
    exact ⟨by simp, by simp⟩

theorem nextChunk_rest_lt (code : List Char) (hne : code ≠ []) :
    (nextChunk code).2.2.length < code.length := by
  obtain ⟨hcons, happ⟩ := nextChunk_spec code hne
  conv_rhs => rw [← happ]
  rw [List.length_append]
  have : 0 < (nextChunk code).2.1.length := List.length_pos.mpr hcons
  omega

theorem tokenizeFromFuel_spec :
    ∀ (fuel : Nat) (code : List Char) (pos : Nat), code.length ≤ fuel →
      ((tokenizeFromFuel fuel pos code).map Token.value).flatten = code ∧
      spanChain pos (tokenizeFromFuel fuel pos code) := by
  intro fuel
  induction fuel with
  | zero =>
      intro code pos h
      have : code = [] := List.eq_nil_of_length_eq_zero (Nat.le_zero.mp h)
      subst this
      simp [tokenizeFromFuel, spanChain]
  | succ n ih =>
      intro code pos h
      cases code with
      | nil => simp [tokenizeFromFuel, spanChain]
      | cons c cs =>
          obtain ⟨hcons, happ⟩ := nextChunk_spec (c :: cs) (by simp)
          have hlt : (nextChunk (c :: cs)).2.2.length < (c :: cs).length :=
            nextChunk_rest_lt (c :: cs) (by simp)
          have hrest : (nextChunk (c :: cs)).2.2.length ≤ n := by
            simp only [List.length_cons] at hlt h
            omega
          obtain ⟨ihflat, ihchain⟩ :=
            ih (nextChunk (c :: cs)).2.2 (pos + (nextChunk (c :: cs)).2.1.length) hrest
          constructor
          · simp only [tokenizeFromFuel, List.map_cons, List.flatten_cons]
            rw [ihflat, happ]
          · simp only [tokenizeFromFuel, spanChain]
            exact ⟨by simp, by simp, ihchain⟩

/-- C1: for every input string the tokenizer returns a token list (it is a
total function, never raising), the concatenation of the `value` fields of
the returned tokens reproduces the input exactly, and the token spans are
gap-free and overlap-free (each token starts where the previous stopped,
starting at position 0, with `stop - start` the token's length). -/
theorem tokenize_reconstructs_input (code : List Char) :
    ((tokenize code).map Token.value).flatten = code ∧ spanChain 0 (tokenize code) :=
  tokenizeFromFuel_spec code.length code 0 (Nat.le_refl _)

/-- C4 counterexample: the claim's priority chain sends a builtin-set word
that is not followed by `(` on to the table/field pattern checks, so on
the input `MAX.` it classifies `MAX` (which matches the short all-caps
pattern and is followed by `.`) as TABLE; the tokenizer classifies it as a
plain IDENTIFIER instead. -/
theorem classify_spec_priority_counterexample :
    (tokenize "MAX.".toList).map Token.type =
      [TokenType.IDENTIFIER, TokenType.PUNCTUATION] ∧
    specClassifyWord "MAX".toList ".".toList = TokenType.TABLE ∧
    TokenType.IDENTIFIER ≠ TokenType.TABLE := by
  refine ⟨by decide, by decide, by decide⟩

/-- C4 (amended): the tokenizer classifies an identifier-like word by the
claim's priority order amended in clause (b): a builtin-set word not
followed by `(` is a plain identifier and does not fall through to the
table/field checks. The claim's concrete examples hold: `select Kunden`
gives KEYWORD then identifier, and `A.B` gives TABLE, `.`, FIELD. -/
theorem classify_word_priority_amended :
    (∀ word rest, classifyWord word rest = amendedClassifyWord word rest) ∧
    (tokenize "select Kunden".toList).map (fun t => (t.type, String.mk t.value)) =
      [(TokenType.KEYWORD, "select"), (TokenType.WHITESPACE, " "),
       (TokenType.IDENTIFIER, "Kunden")] ∧
    (tokenize "A.B".toList).map (fun t => (t.type, String.mk t.value)) =
      [(TokenType.TABLE, "A"), (TokenType.PUNCTUATION, "."), (TokenType.FIELD, "B")] := by
  refine ⟨fun word rest => rfl, by decide, by decide⟩

theorem foldl_setAdd_mem (dets : List Relationship) :
    ∀ (acc : List Relationship) (r : Relationship),
      r ∈ dets.foldl setAdd acc ↔ r ∈ acc ∨ r ∈ dets := by
  induction dets with
  | nil => simp
  | cons d ds ih =>
      intro acc r
      simp only [List.foldl_cons, ih, setAdd]
      split_ifs with h
      · constructor
        · rintro (h1 | h1)
          · exact Or.inl h1
          · exact Or.inr (List.mem_cons_of_mem _ h1)
        · rintro (h1 | h1)
          · exact Or.inl h1
          · rcases List.mem_cons.mp h1 with h2 | h2
            · exact Or.inl (h2 ▸ h)
            · exact Or.inr h2
      · constructor
        · rintro (h1 | h1)
          · rcases List.mem_append.mp h1 with h2 | h2
            · exact Or.inl h2
            · simp at h2
              exact Or.inr (h2 ▸ List.mem_cons_self d ds)
          · exact Or.inr (List.mem_cons_of_mem _ h1)
        · rintro (h1 | h1)
          · exact Or.inl (List.mem_append.mpr (Or.inl h1))
          · rcases List.mem_cons.mp h1 with h2 | h2
            · exact Or.inl (List.mem_append.mpr (Or.inr (by simp [h2])))
            · exact Or.inr h2

theorem foldl_setAdd_nodup (dets : List Relationship) :
    ∀ (acc : List Relationship), acc.Nodup → (dets.foldl setAdd acc).Nodup := by
  induction dets with
  | nil => exact fun _ h => h
  | cons d ds ih =>
      intro acc h
      simp only [List.foldl_cons, setAdd]
      split_ifs with hmem
      · exact ih acc h
      · exact ih _ (by simp [List.nodup_append, h, hmem])

/-- C2 counterexample: two FORMULA_REF detections produced by the real
pipeline for the same field — one from its `afterUpdate` script, one from
its `afterCreate` script, both referencing table `Kunden` — agree on the
five-field identity tuple but differ in `found_in_code_type` and
`found_in_code`; the set accumulation keeps both, so two rows are stored
where the claim requires exactly one. -/
theorem relationship_dedup_counterexample :
    (let s1 : CodeLocation :=
      { team_id := "T1", team_name := "Team", database_id := "db1",
        database_name := "DB", table_id := some "t1",
        table_name := some "Kontakte", element_id := some "f1",
        element_name := some "Status", code_type := "afterUpdate",
        code_category := "trigger", code := "select Kunden" }
     let s2 : CodeLocation :=
      { team_id := "T1", team_name := "Team", database_id := "db1",
        database_name := "DB", table_id := some "t1",
        table_name := some "Kontakte", element_id := some "f1",
        element_name := some "Status", code_type := "afterCreate",
        code_category := "trigger", code := "select Kunden;" }
     let rows := storedRelationshipRows
       (formulaRelsForScript s1 [] ++ formulaRelsForScript s2 [])
     rows.length = 2 ∧ ∀ r1 ∈ rows, ∀ r2 ∈ rows, r1.identityKey = r2.identityKey) := by
  decide

/-- C2 (amended): the set accumulation deduplicates by the dataclass
equality, i.e. structural equality of all fields: the stored rows are
exactly the distinct detections — each detected relationship value appears
as exactly one row (no duplicates), and nothing else is stored. Detections
agreeing only on the five-field identity tuple but differing in another
field (such as the code snippet) are stored as separate rows. -/
theorem relationship_dedup_full_equality (dets : List Relationship) :
    (storedRelationshipRows dets).Nodup ∧
    (∀ r, r ∈ storedRelationshipRows dets ↔ r ∈ dets) := by
  constructor
  · exact foldl_setAdd_nodup dets [] List.nodup_nil
  · intro r
    rw [storedRelationshipRows, foldl_setAdd_mem]
    simp

/-- C3 counterexample: `extract_all` manually executes
`DELETE FROM scripts_fts` (a write to the index outside the two triggers)
before `DELETE FROM scripts`; at the point between the two statements a
Script row exists with no index row, so the iff invariant does not hold at
every point, and the mirror is not maintained by the triggers alone. -/
theorem fts_mirror_counterexample :
    (let st := deleteScriptsFtsAll
      (insertScript initScriptsDB { code := "let x := 1", code_type := "fn" })
     ftsConsistent st = false ∧ st.scripts ≠ [] ∧ st.fts = [] ∧
     extractAllClear (insertScript initScriptsDB { code := "let x := 1", code_type := "fn" }) =
       deleteScriptsAll st) := by
  refine ⟨by decide, by decide, by decide, rfl⟩

/-- C3 (amended): the iff invariant — an index row exists iff a Script row
with the same rowid exists — holds after schema initialisation and at
every statement boundary other than inside the bulk clear: it is preserved
by every script insert (via the insert trigger) and restored by the
complete clear sequence of `extract_all`, which first manually empties the
index (a write outside the triggers, transiently breaking the invariant)
and then deletes the scripts rows through the delete trigger. -/
theorem fts_mirror_invariant_amended :
    ftsConsistent initScriptsDB = true ∧
    (∀ st s, ftsConsistent st = true → ftsConsistent (insertScript st s) = true) ∧
    (∀ st, ftsConsistent (extractAllClear st) = true) := by
  refine ⟨by decide, ?_, ?_⟩
  · intro st s h
    simp only [ftsConsistent, insertScript, Bool.and_eq_true, List.all_eq_true] at h ⊢
    obtain ⟨h1, h2⟩ := h
    constructor
    · intro p hp
      rcases List.mem_append.mp hp with hp | hp
      · have := h1 p hp
        simp only [List.any_eq_true] at this ⊢
        obtain ⟨q, hq, hqq⟩ := this
        exact ⟨q, List.mem_append.mpr (Or.inl hq), hqq⟩
      · simp at hp
        simp [hp]
    · intro q hq
      rcases List.mem_append.mp hq with hq | hq
      · have := h2 q hq
        simp only [List.any_eq_true] at this ⊢
        obtain ⟨p, hp, hpp⟩ := this
        exact ⟨p, List.mem_append.mpr (Or.inl hp), hpp⟩
      · simp at hq
        simp [hq]
  · intro st
    rfl

/-- Witness for the amended C3 invariant at a concrete state. -/
theorem fts_mirror_invariant_amended_witness :
    ftsConsistent (insertScript initScriptsDB { code := "x" }) = true :=
  fts_mirror_invariant_amended.2.1 initScriptsDB { code := "x" }
    fts_mirror_invariant_amended.1

theorem sqlLike_percent (p : List Char) (s : List Char) :
    sqlLike ('%' :: p) s = true ↔ ∃ t, t <:+ s ∧ sqlLike p t = true := by
  simp [sqlLike, List.any_eq_true, List.mem_tails]

theorem sqlLike_lit_percent (q : List Char) (hq : noWildcard q = true) :
    ∀ t, sqlLike (q ++ ['%']) t = true ↔ startsWithCI q t = true := by
  induction q with
  | nil =>
      intro t
      simp only [List.nil_append, startsWithCI, iff_true]
      simp only [sqlLike, List.any_eq_true, List.mem_tails]
      exact ⟨[], List.nil_suffix, rfl⟩
  | cons c q' ih =>
      simp only [noWildcard, List.all_cons, Bool.and_eq_true, Bool.not_eq_true',
        decide_eq_false_iff_not] at hq
      obtain ⟨⟨hc1, hc2⟩, hq'⟩ := hq
      have ihq := ih hq'
      intro t
      cases t with
      | nil =>
          rw [List.cons_append, sqlLike] <;> try assumption
          simp [startsWithCI]
      | cons d t' =>
          rw [List.cons_append, sqlLike] <;> try assumption
          simp only [startsWithCI, Bool.and_eq_true, ihq t']

theorem sqlLike_pattern_contains (q : String) (s : List Char)
    (hq : noWildcard q.toList = true) :
    sqlLike (likePatternFor q) s = containsCI q.toList s := by
  rw [Bool.eq_iff_iff]
  rw [likePatternFor, sqlLike_percent]
  constructor
  · rintro ⟨t, hts, hlike⟩
    have hstart := (sqlLike_lit_percent _ hq t).mp hlike
    obtain ⟨pre, hpre⟩ := hts
    rw [containsCI, List.any_eq_true]
    refine ⟨pre.length, ?_, ?_⟩
    · simp [List.mem_range]
      have := congrArg List.length hpre
      simp at this
      omega
    · have : s.drop pre.length = t := by
        rw [← hpre]
        simp
      rw [this]
      exact hstart
  · intro h
    rw [containsCI, List.any_eq_true] at h
    obtain ⟨i, _, hstart⟩ := h
    exact ⟨s.drop i, List.drop_suffix i s, (sqlLike_lit_percent _ hq _).mpr hstart⟩

theorem mem_insertSorted (x r : ScriptRec) (l : List ScriptRec) :
    r ∈ insertSorted x l ↔ r = x ∨ r ∈ l := by
  induction l with
  | nil => simp [insertSorted]
  | cons y ys ih =>
      rw [insertSorted]
      split_ifs with h
      · simp only [List.mem_cons, ih]
        tauto
      · simp only [List.mem_cons]

theorem mem_sortRows (r : ScriptRec) (l : List ScriptRec) :
    r ∈ sortRows l ↔ r ∈ l := by
  induction l with
  | nil => simp [sortRows]
  | cons y ys ih =>
      rw [sortRows, List.foldr_cons, mem_insertSorted]
      rw [sortRows] at ih
      simp [ih]

/-- C5 counterexample: the FTS-invalid query `x%y` reaches the fallback,
which runs `LIKE '%x%y%'`; the `%` inside the query acts as a wildcard, so
the row with code `xAy` is returned even though `x%y` is not a substring
(case-insensitively) of any of its searched fields — the fallback is not a
substring scan for queries containing LIKE wildcards. -/
theorem search_fallback_substring_counterexample :
    (let r : ScriptRec := { database_id := "db1", code := "xAy" }
     searchScripts [r] (.error ()) "x%y" none none none 100 = [r] ∧
     containsCI "x%y".toList "xAy".toList = false ∧
     r.table_name = none ∧ r.element_name = none) := by
  refine ⟨by decide, by decide, rfl, rfl⟩

/-- C5 (amended): when the full-text syntax is invalid (the search raises
`sqlite3.OperationalError`), `search_scripts` does not raise: it returns
`search_scripts_simple(query, limit)`, the SQL `LIKE '%query%'` scan
(ASCII case folding) over code, table name and element name; every
returned row matches that LIKE test, and for a query free of the LIKE
wildcards `%` and `_` the LIKE test is exactly case-insensitive substring
containment, so the caller always receives a result list. -/
theorem search_fallback_like_scan :
    (∀ (db : List ScriptRec) (e : Unit) (q : String) f1 f2 f3 lim,
        searchScripts db (.error e) q f1 f2 f3 lim = searchScriptsSimple db q lim) ∧
    (∀ (db : List ScriptRec) (q : String) lim r,
        r ∈ searchScriptsSimple db q lim → likeAnyField q r = true) ∧
    (∀ (q : String) (s : List Char), noWildcard q.toList = true →
        sqlLike (likePatternFor q) s = containsCI q.toList s) := by
  refine ⟨fun _ _ _ _ _ _ _ => rfl, ?_, fun q s hq => sqlLike_pattern_contains q s hq⟩
  intro db q lim r hr
  rw [searchScriptsSimple] at hr
  have h1 : r ∈ sortRows (db.filter (likeAnyField q)) := List.mem_of_mem_take hr
  have h2 : r ∈ db.filter (likeAnyField q) := (mem_sortRows r _).mp h1
  exact (List.mem_filter.mp h2).2

/-- Witness for the amended C5 theorem at concrete inputs. -/
theorem search_fallback_like_scan_witness :
    sqlLike (likePatternFor "ab") "zAbq".toList = containsCI "ab".toList "zAbq".toList ∧
    likeAnyField "b" { database_id := "db1", code := "abc" } = true :=
  ⟨search_fallback_like_scan.2.2 "ab" "zAbq".toList (by decide),
   search_fallback_like_scan.2.1 [{ database_id := "db1", code := "abc" }] "b" 100
     { database_id := "db1", code := "abc" } (by decide)⟩

/-- C10: the fallback path ignores the filter arguments entirely —
`search_scripts_simple` takes only the query and the limit, so the
error-path result is identical for any two filter combinations; concretely
a row with `database_id = "db1"` is returned although the caller filtered
on `database_id = "db2"`, a filter that row fails. -/
theorem search_fallback_ignores_filters :
    (∀ (db : List ScriptRec) (e : Unit) (q : String) f1 f2 f3 g1 g2 g3 lim,
        searchScripts db (.error e) q f1 f2 f3 lim =
        searchScripts db (.error e) q g1 g2 g3 lim) ∧
    (let r : ScriptRec := { database_id := "db1", code := "abc" }
     searchScripts [r] (.error ()) "b" (some "db2") none none 100 = [r] ∧
     r.database_id = "db1" ∧ ("db1" : String) ≠ "db2" ∧
     filtersPass (some "db2") none none r = false) := by
  refine ⟨fun _ _ _ _ _ _ _ _ _ _ => rfl, by decide, rfl, by decide, by decide⟩

theorem acceptTableName_iff (known : List String) (n : String) :
    acceptTableName known n = true ↔
      (n ∈ known ∨ (2 < n.length ∧ String.mk (pyLower n.toList) ∉ STOP_WORDS)) := by
  simp [acceptTableName]

theorem mem_accumulateAccepted (names : List String) (p : String → Bool) :
    ∀ (acc : List String) (n : String),
      n ∈ names.foldl
        (fun s m => if p m then (if s.contains m then s else s ++ [m]) else s) acc ↔
      n ∈ acc ∨ (n ∈ names ∧ p n = true) := by
  induction names with
  | nil => simp
  | cons m ms ih =>
      intro acc n
      simp only [List.foldl_cons, ih]
      by_cases hp : p m = true
      · by_cases hc : acc.contains m = true
        · have hm : m ∈ acc := by simpa using hc
          rw [if_pos hp, if_pos hc]
          simp only [List.mem_cons]
          constructor
          · rintro (h | h)
            · exact Or.inl h
            · exact Or.inr ⟨Or.inr h.1, h.2⟩
          · rintro (h | ⟨h1 | h1, h2⟩)
            · exact Or.inl h
            · exact Or.inl (h1 ▸ hm)
            · exact Or.inr ⟨h1, h2⟩
        · rw [if_pos hp, if_neg hc]
          simp only [List.mem_append, List.mem_cons, List.not_mem_nil, or_false]
          constructor
          · rintro ((h | h) | h)
            · exact Or.inl h
            · exact Or.inr ⟨Or.inl h, h ▸ hp⟩
            · exact Or.inr ⟨Or.inr h.1, h.2⟩
          · rintro (h | ⟨h1 | h1, h2⟩)
            · exact Or.inl (Or.inl h)
            · exact Or.inl (Or.inr h1)
            · exact Or.inr ⟨h1, h2⟩
      · rw [if_neg hp]
        simp only [List.mem_cons]
        constructor
        · rintro (h | h)
          · exact Or.inl h
          · exact Or.inr ⟨Or.inr h.1, h.2⟩
        · rintro (h | ⟨h1 | h1, h2⟩)
          · exact Or.inl h
          · exact absurd (h1 ▸ h2) hp
          · exact Or.inr ⟨h1, h2⟩

/-- C6: a name captured by one of the eight table-reference patterns is
accepted as a formula reference iff it is a known table name, or it is
longer than two characters and its lowercase form is not in the fixed
stop-word list; and every FORMULA_REF relationship built for a script
carries the script's code type and a snippet that is exactly the first 500
characters of the owning script's code. -/
theorem formula_reference_acceptance (code : List Char) (known : List String)
    (n : String) (script : CodeLocation) (r : Relationship) :
    (n ∈ extractFormulaReferences code known ↔
      n ∈ capturedNames code ∧
        (n ∈ known ∨ (2 < n.length ∧ String.mk (pyLower n.toList) ∉ STOP_WORDS))) ∧
    (r ∈ formulaRelsForScript script known →
      r.relationship_type = "FORMULA_REF" ∧
      r.found_in_code = some (String.mk (script.code.toList.take 500))) ∧
    (∀ m ∈ extractFormulaReferences script.code.toList known,
      ∃ r2 ∈ formulaRelsForScript script known, r2.target_table_name = m) := by
  refine ⟨?_, ?_, ?_⟩
  · rw [extractFormulaReferences, mem_accumulateAccepted]
    simp only [List.not_mem_nil, false_or, acceptTableName_iff]
  · intro hr
    obtain ⟨t, ht, rfl⟩ := List.mem_map.mp hr
    exact ⟨rfl, rfl⟩
  · intro m hm
    exact ⟨_, List.mem_map_of_mem _ hm, rfl⟩

/-- Witness for C6 at a concrete script whose formula `select Kunden`
yields one FORMULA_REF relationship. -/
theorem formula_reference_acceptance_witness :
    (let rel : Relationship :=
      { database_id := "db1", database_name := "DB", source_table_id := "t1",
        source_table_name := "Kontakte", source_field_id := "f1",
        source_field_name := "Status", target_table_id := "",
        target_table_name := "Kunden", relationship_type := "FORMULA_REF",
        found_in_code_type := some "fn", found_in_code := some "select Kunden" }
     rel.relationship_type = "FORMULA_REF" ∧
       rel.found_in_code =
         some (String.mk (("select Kunden" : String).toList.take 500))) :=
  (formula_reference_acceptance [] [] "x"
    { team_id := "T1", team_name := "Team", database_id := "db1",
      database_name := "DB", table_id := some "t1",
      table_name := some "Kontakte", element_id := some "f1",
      element_name := some "Status", code_type := "fn",
      code_category := "formula", code := "select Kunden" } _).2.1 (by decide)

/-- C7: on the script text `do as database 'Sales' create Invoice end` the
cross-database extraction returns exactly one record, with target database
`Sales`, reference type `do as database`, and the whole (short) text as
its context snippet; neither the `do as server` nor the `openDatabase`
pattern matches. -/
theorem do_as_database_sales_reference :
    extractDatabaseReferences "do as database 'Sales' create Invoice end".toList =
      [{ target_database := "Sales", reference_type := "do as database",
         snippet := "do as database 'Sales' create Invoice end" }] := by
  decide

/-- C8: for every relationship table and every table name, no row of the
outgoing (`references`) or incoming (`referenced_by`) list has type
FORMULA_REF — each carries the table as source resp. target — and every
row of the formula list has type FORMULA_REF with the table as source or
target. -/
theorem table_dependencies_partition (rows : List Relationship) (t : String) :
    (∀ r ∈ (getTableDependencies rows t).references,
        r.relationship_type ≠ "FORMULA_REF" ∧ r.source_table_name = t) ∧
    (∀ r ∈ (getTableDependencies rows t).referenced_by,
        r.relationship_type ≠ "FORMULA_REF" ∧ r.target_table_name = t) ∧
    (∀ r ∈ (getTableDependencies rows t).formula_references,
        r.relationship_type = "FORMULA_REF" ∧
        (r.source_table_name = t ∨ r.target_table_name = t)) := by
  refine ⟨?_, ?_, ?_⟩ <;> intro r hr <;>
    have h := (List.mem_filter.mp hr).2 <;>
    simp only [Bool.and_eq_true, Bool.or_eq_true, decide_eq_true_eq,
      Bool.not_eq_true', decide_eq_false_iff_not] at h
  · exact ⟨h.2, h.1⟩
  · exact ⟨h.2, h.1⟩
  · exact ⟨h.2, h.1⟩

/-- Witness for C8 at a one-row relationship table. -/
theorem table_dependencies_partition_witness :
    (let rel : Relationship :=
      { database_id := "db1", database_name := "DB", source_table_id := "",
        source_table_name := "Orders", source_field_id := "",
        source_field_name := "fn", target_table_id := "",
        target_table_name := "Kunden", relationship_type := "FORMULA_REF" }
     rel.relationship_type = "FORMULA_REF" ∧
       (rel.source_table_name = "Orders" ∨ rel.target_table_name = "Orders")) :=
  (table_dependencies_partition
    [{ database_id := "db1", database_name := "DB", source_table_id := "",
       source_table_name := "Orders", source_field_id := "",
       source_field_name := "fn", target_table_id := "",
       target_table_name := "Kunden",
       relationship_type := "FORMULA_REF" }] "Orders").2.2 _ (by decide)

/-- C9: if the existing store file fails the integrity check run before a
fresh extraction, the file is removed and the store held open when the
inserts begin is the empty, schema-valid store — for every possible
content of the corrupt file and every previously open connection, i.e.
nothing of the old store is reused (no partial repair). -/
theorem corrupt_store_rebuilt_empty (content : Store) (conn : Option Store) :
    extractAllOpen (.file false content) conn = emptyStore ∧
    extractAllPrepared (.file false content) conn = emptyStore :=
  ⟨rfl, rfl⟩
